import Mathlib

/-
Verification development for the folioflexxing PDF-resume-to-portfolio
generation pipeline.

The repository's core is the Next.js route handler `POST` (two observed
variants of `app/api/generate/route.ts`, called `POST1` and `POST2` below),
plus small helpers (`cleanJSON`, `cleanHTML`, the image-extension
derivation) and the Redis-backed history and rate-limit bookkeeping.

Modelling conventions:
  * JavaScript strings are modelled as Lean `String` / `List Char`
    (UTF-16 code-unit positions are modelled as character positions).
  * All external collaborators (PDF text extraction, the hosted model,
    `JSON.parse`, the storage backend, Redis, reCAPTCHA, randomness,
    clocks) are inputs in an `Env` record: each run of the handler is a
    pure function of its `Env`.
  * The handler's observable effects (model calls, storage uploads, the
    history write) are returned as an ordered `List Event` trace.
  * `JSON.parse` is abstracted as `Env.parseJSON : String → Except String
    String`: `.error msg` models a thrown exception (caught by the
    handler's catch-all), `.ok j` models success, where `j` stands for the
    `JSON.stringify(value, null, 2)` re-serialization that is the parsed
    value's only later use.
-/

/-! ## JavaScript string primitives, modelled over `List Char` -/

/-- First occurrence of `pat` in a list: `some (pre, suf)` with the
searched list equal to `pre ++ pat ++ suf` and `pre` shortest, `none`
when `pat` does not occur. This is the leftmost-match search underlying
`String.prototype.includes` and the leftmost-shortest semantics of the
non-greedy regexes in `cleanJSON` / `cleanHTML`. -/
def findSub (pat : List Char) : List Char → Option (List Char × List Char)
  | [] => if pat.isEmpty then some ([], []) else none
  | c :: rest =>
    if pat.isPrefixOf (c :: rest) then some ([], (c :: rest).drop pat.length)
    else (findSub pat rest).map (fun pr => (c :: pr.1, pr.2))

/-- JavaScript `s.includes(pat)`. -/
def strContains (s pat : String) : Bool :=
  (findSub pat.data s.data).isSome

/-- Whitespace trimming on both ends of a character list. -/
def trimChars (l : List Char) : List Char :=
  ((l.dropWhile Char.isWhitespace).reverse.dropWhile Char.isWhitespace).reverse

/-- JavaScript `s.trim()`. -/
def jsTrim (s : String) : String :=
  String.mk (trimChars s.data)

/-- JavaScript `s.split('.')`: splits at every `'.'`, never returns an
empty list (the empty string splits to `[[]]`). -/
def splitOnDot : List Char → List (List Char)
  | [] => [[]]
  | c :: rest =>
    if c = '.' then [] :: splitOnDot rest
    else
      match splitOnDot rest with
      | [] => [[c]]
      | s :: ss => (c :: s) :: ss

/-- Source (route variant 1, lines 156-158, and variant 2, line 598):
`image.name.split('.').pop() || 'jpg'`. `pop()` of the never-empty split
is its last segment; the `|| 'jpg'` fallback fires exactly when that
segment is falsy, i.e. the empty string. -/
def imageExtension (name : String) : String :=
  match (splitOnDot name.data).getLast? with
  | some seg => if seg.isEmpty then "jpg" else String.mk seg
  | none => "jpg"

/-- Source: the fence-stripping helpers
`text.match(/```json\n([\s\S]*?)\n```/)` (and the `html` analogue):
leftmost occurrence of the opening fence, then the shortest body up to
the next closing fence; when the regex does not match, the text is
returned unchanged. -/
def cleanFence (label : String) (text : String) : String :=
  match findSub ("```" ++ label ++ "\n").data text.data with
  | none => text
  | some (_, rest) =>
    match findSub "\n```".data rest with
    | none => text
    | some (inner, _) => String.mk inner

/-- Source (lines 23-26): `cleanJSON`. -/
def cleanJSON (text : String) : String := cleanFence "json" text

/-- Source (lines 29-32): `cleanHTML`. -/
def cleanHTML (text : String) : String := cleanFence "html" text

/-! ## Prompt texts, transcribed from the source template literals

Each `def` below is a verbatim chunk of one of the handler's template
literals, split at the `${...}` interpolation points. -/

def valChunkA : String :=
  "
      You are a document classifier. Analyze the following text and determine if it is a resume/CV or not.
      
      A resume/CV typically contains:
      - Personal information (name, contact details)
      - Work experience or employment history
      - Education history
      - Skills or competencies
      - Professional summary or objective
      
      If this document is clearly NOT a resume (e.g., it's a research paper, book, article, manual, legal document, financial report, etc.), respond with exactly:
      NOT_A_RESUME
      
      If this document IS a resume or CV (even if incomplete or poorly formatted), respond with exactly:
      VALID_RESUME
      
      Document text:
      ---
      "

def valChunkB : String :=
  "
      ---
      
      Your response (only \"NOT_A_RESUME\" or \"VALID_RESUME\"):
    "

/-- Source (lines 120-142 and 560-582, identical in both variants): the
classification prompt, embedding the first 2000 characters of the
extracted text. -/
def validationPrompt (resumeText : String) : String :=
  valChunkA ++ String.mk (resumeText.data.take 2000) ++ valChunkB

def structChunkA : String :=
  "
      You are an expert data analyst. Analyze the following resume text and extract the information into a structured JSON object.
      The JSON should have the following keys: \"personalInfo\", \"summary\", \"workExperience\", \"education\", \"skills\", \"projects\".
      - \"personalInfo\": should contain \"name\", \"email\", \"phone\", \"linkedin\", \"github\".
      - \"workExperience\": should be an array of objects, each with \"company\", \"role\", \"dates\", and \"responsibilities\" (as an array of strings).
      - \"education\": should be an array of objects, each with \"institution\", \"degree\", and \"dates\".
      - \"skills\": should be an array of strings.
      - \"projects\": should be an array of objects, each with \"name\", \"description\", and \"technologies\" (as an array of strings).
      If a section is not present, return an empty array or object for that key.

      Resume text:
      ---
      "

def structChunkB : String :=
  "
      ---

      Return only the JSON object, formatted as a JSON markdown code block.
    "

/-- Source (lines 162-178 and 603-619, identical in both variants): the
structuring prompt, embedding the full extracted text. -/
def structuringPrompt (resumeText : String) : String :=
  structChunkA ++ resumeText ++ structChunkB

def g1A : String :=
  "
      You are an award-winning web designer specializing in sophisticated, high-end personal portfolios.
      Your task is to transform the provided JSON data into a complete, single-page HTML file that looks like a professional designer's portfolio website.

      **CRITICAL: AVOID GENERIC AI DESIGN**
      - DO NOT create generic, soulless designs that look like \"AI slop\"
      - AVOID: Generic sans-serif fonts (Inter, Roboto, System UI), flat solid backgrounds, boring layouts
      - AVOID: Overly safe, corporate aesthetics with no personality
      - CREATE: Distinctive, memorable designs with strong visual identity and creative risk-taking
      - Your design should look hand-crafted by a professional designer, NOT generated by AI

      **Design Philosophy:**
      - Create a portfolio that looks like it was designed by a professional UI/UX designer
      - Think portfolio website, not resume - focus on visual impact and storytelling
      - Use large, bold typography with distinctive font choices
      - Layer backgrounds with gradients, patterns, and textures for depth
      - Incorporate decorative elements (subtle illustrations, abstract shapes, geometric patterns)
      - Make it feel personal and unique, not template-like
      - IMPORTANT: "

def g1B : String :=
  "
      - Design seed: "

def g1C : String :=
  " (use this to inspire unique creative choices)

      **Technical Requirements:**
      - **Styling:** Use the Tailwind CSS CDN: <script src=\"https://cdn.tailwindcss.com\"></script>
      - **Fonts:** CRITICAL - Choose distinctive, characterful fonts. Avoid generic options.
        * Use Google Fonts with personality and visual interest
        * Pair contrasting fonts (serif + sans-serif, display + body)
        * Examples: Playfair Display, Crimson Pro, Space Grotesk, DM Serif Display, Archivo Black, Syne
      - **Backgrounds:** Create depth with layered elements:
        * Use CSS gradients (linear, radial, conic)
        * Add geometric patterns or organic shapes
        * Layer semi-transparent elements for depth
        * Incorporate subtle textures or noise
      - **Animations:** Add meaningful micro-interactions:
        * Smooth scroll-triggered animations (fade in, slide up)
        * Hover effects on cards and buttons (scale, shadow changes)
        * Stagger animations for lists and grids
        * Use CSS transitions and transforms
      - **Icons:** Use inline SVGs for social links and decorative elements
      - **Responsive:** Must work beautifully on mobile, tablet, and desktop

      **Template: \""

def g1D : String :=
  "\"**

      Template-Specific Design Guidelines:

      **elegant-serif:**
      - **Fonts:** Playfair Display (headings) + Crimson Pro (body) OR Lora (headings) + Source Serif Pro (body)
      - **Background:** Cream base (#FAF7F2) with subtle paper texture via CSS noise filter
        * Add faint radial gradient from center (white to cream)
        * Incorporate thin decorative lines or borders in muted gold
      - **Animations:** 
        * Fade-in sections on scroll with slight upward motion
        * Smooth parallax on decorative elements
        * Elegant hover transitions on project cards (subtle shadow growth)
      - **Layout:** Refined two-column layout with sidebar navigation
      - **Color Palette:** Beiges, warm grays, deep burgundy or forest green accent
      - **Details:** Timeline-style work experience, decorative flourishes, serif drop caps
      - **Inspiration:** High-end editorial design, luxury brand websites

      **neo-brutalism:**
      - **Fonts:** Archivo Black (display) + Space Grotesk (body) OR Syne (headings) + IBM Plex Mono (details)
      - **Background:** Warm cream (#FFFAE5) with optional subtle grain texture
        * Add bold geometric shapes as decorative elements
        * Use solid color blocks (orange, green, purple) as section dividers
      - **Animations:**
        * Elements \"pop in\" with bounce effect on scroll
        * Hover: Remove shadow and translate element to shadow position (active press effect)
        * Stagger animations for grid items
        * Rotate/skew animations on decorative shapes
      - **Visual Style:**
        * Heavy 4px black borders on ALL interactive elements
        * Hard drop shadows (8px 8px 0px black) - NO blur
        * Accent colors: bright orange (#FF4D00), acid green (#A3FF00), electric purple (#9D00FF)
        * NO rounded corners - pure geometric rectangles
        * Text-stroke effects for outlined typography (-webkit-text-stroke)
      - **Layout:** Asymmetric bento-grid with varying card sizes
      - **Inspiration:** Y2K web design, punk zines, screen printing, brutalist architecture

      **minimal-cards:**
      - **Fonts:** DM Sans (headings, bold weight) + Inter (body) OR Manrope (headings) + Work Sans (body)
      - **Background:** Pure white or very light gray (#FAFAFA) with subtle gradient overlay
        * Add faint geometric grid pattern in background
        * Use colored accent blocks sparingly for visual interest
      - **Animations:**
        * Cards lift on hover with smooth shadow expansion
        * Fade-in and slide-up on scroll with stagger effect
        * Smooth color transitions on interactive elements
        * Scale transform on card hover (1.02x growth)
      - **Visual Style:**
        * Soft shadows (0 4px 20px rgba(0,0,0,0.08))
        * Single vibrant accent color (blue, purple, or teal)
        * Rounded corners (8-12px) for modern feel
        * Generous whitespace and padding
      - **Layout:** Clean grid (2-3 columns) with consistent card sizing
      - **Inspiration:** Dribbble, Behance, modern SaaS landing pages

      **dark-modern:**
      - **Fonts:** Inter (headings, extra-bold) + JetBrains Mono (code/details) OR Outfit (display) + Space Grotesk (body)
      - **Background:** Deep dark (#0a0a0a to #1a1a1a) with layered gradients
        * Add radial gradient spotlights (purple, blue, cyan)
        * Incorporate subtle dot or line patterns
        * Use mesh gradients for depth (dark blue to purple to teal)
      - **Animations:**
        * Smooth fade-ins with glow effects on scroll
        * Pulsing glow on accent elements
        * Smooth glassmorphic card reveals
        * Hover: Increase glow intensity and slight lift
      - **Visual Style:**
        * Glassmorphism (backdrop-filter: blur, semi-transparent backgrounds)
        * Neon accent colors (electric blue, cyan, magenta, lime green)
        * Soft glow effects (box-shadow with spread)
        * High contrast white/light text (#E5E5E5)
      - **Layout:** Full-bleed sections with overlapping glassmorphic cards
      - **Inspiration:** Apple product pages, crypto/web3 sites, cyberpunk aesthetic

      **fluid-gradient:**
      - **Fonts:** Plus Jakarta Sans (headings) + DM Sans (body) OR Satoshi (display) + Inter (body)
      - **Background:** Multi-color mesh gradient with smooth color transitions
        * Layer 3-4 colors: blues (#4F46E5), purples (#9333EA), oranges (#F59E0B), pinks (#EC4899)
        * Use radial and linear gradients combined
        * Add subtle animated gradient shift (optional CSS animation)
      - **Animations:**
        * Glassmorphic cards fade in with slight scale
        * Smooth parallax on background gradient
        * Hover: Brighten glassmorphic effect and lift card
        * Floating animation on decorative elements
      - **Visual Style:**
        * Frosted glass cards (backdrop-filter: blur(20px), rgba backgrounds)
        * Soft borders (1px rgba(255,255,255,0.2))
        * Premium shadows with multiple layers
        * White or very light text on glass
      - **Layout:** Centered content with glassmorphic card sections
      - **Inspiration:** Stripe, Linear, modern fintech/SaaS landing pages

      **bento-grid:**
      - **Fonts:** Sohne (display, if available via @font-face) OR Inter (headings, black weight) + SF Pro Text fallback
      - **Background:** Pure white (#FFFFFF) or very light gray (#F9F9F9)
        * NO gradients or textures - pure flat color
        * Use subtle grid lines or dividers in light gray (#E5E5E5)
      - **Animations:**
        * Minimal fade-in on scroll (opacity only, no motion)
        * Subtle hover state on buttons (slight background color shift)
        * NO complex animations - prioritize stillness
      - **Visual Style:**
        * STRICTLY MONOCHROMATIC (blacks, whites, grays only)
        * Very large headings (clamp(48px, 8vw, 120px))
        * Ultra-light borders (1px #E5E5E5)
        * Minimal shadows (if any): 0 1px 3px rgba(0,0,0,0.05)
        * Pills buttons with black fill and white text
      - **Layout:** Single-column, centered content with generous whitespace
        * Each section separated by 120px+ vertical space
        * Maximum width: 800px for readability
      - **Inspiration:** Linear, Vercel, minimalist Swiss design, brutalist simplicity

      **Content Structure:**
      - Hero section: Large name, title/role, brief tagline
      - About section: 2-3 paragraph introduction with personality
      - Experience section: Focus on impact and achievements, not just responsibilities
      - Projects section: Visual cards with descriptions
      - Skills section: Organized by category or displayed visually
      - Contact section: Social links with icons

      **Pro Tips:**
      - Include subtle background patterns or gradients
      - Use accent colors strategically to draw attention
      - Add metrics/numbers where possible (years of experience, projects completed)
      - Make links and buttons visually distinct with hover states

      "

def g1ImgBlockA : String :=
  "**Profile Image:**
      A profile image has been provided. Use this image in the hero section or header area.
      Embed it using: <img src=\""

def g1ImgBlockB : String :=
  "\" alt=\"Profile\" class=\"...\" />
      Make it prominent - use a large circular or artistic crop as appropriate for the template style."

def g1NoImgBlock : String :=
  "**Profile Image:**
      NO profile image was provided. DO NOT include any image placeholders, broken image tags, or image frames.
      Focus on typography and decorative elements instead. Use the person's initials in a circular badge if needed."

def g1E : String :=
  "

      JSON data:
      ---
      "

def g1F : String :=
  "
      ---

      Return only the complete HTML file, formatted as an HTML markdown code block. Do not include any other text or explanation.
      Make it look professional, polished, and impressive - like something that would get featured on Awwwards or CSS Design Awards.
    "

/-- Variant 1's profile-image prompt section: the template ternary
`${uploadedImageUrl ? ... : ...}` on the (truthy, i.e. non-empty)
uploaded image URL, with the URL interpolated into the `<img src=...>`
instruction. -/
def g1ImageSection (uploadedImageUrl : Option String) : String :=
  match uploadedImageUrl with
  | some u => if u = "" then g1NoImgBlock else g1ImgBlockA ++ u ++ g1ImgBlockB
  | none => g1NoImgBlock

/-- Source (variant 1, lines 210-391): the rendering prompt, embedding
the chosen creative variation, the random seed, the template id, the
image section and the re-serialized structured JSON. -/
def generationPrompt1 (randomVariation randomSeed template : String)
    (uploadedImageUrl : Option String) (structuredJson : String) : String :=
  g1A ++ randomVariation ++ g1B ++ randomSeed ++ g1C ++ template ++ g1D ++
    g1ImageSection uploadedImageUrl ++ g1E ++ structuredJson ++ g1F

def g2A : String :=
  "
      You are an award-winning web designer specializing in sophisticated, high-end personal portfolios.
      Your task is to transform the provided JSON data into a complete, single-page HTML file that looks like a professional designer's portfolio website.

      **Design Philosophy:**
      - Create a portfolio that looks like it was designed by a professional UI/UX designer
      - Think portfolio website, not resume - focus on visual impact and storytelling
      - Use large, bold typography and generous white space
      - Incorporate decorative elements (subtle illustrations, abstract shapes, gradient backgrounds)
      - Make it feel personal and unique, not template-like

      **Technical Requirements:**
      - **Styling:** Use the Tailwind CSS CDN: <script src=\"https://cdn.tailwindcss.com\"></script>
      - **Fonts:** Import 2-3 complementary fonts from Google Fonts (mix serif and sans-serif for visual interest)
      - **Icons:** Use inline SVGs for social links and decorative elements
      - **Responsive:** Must work beautifully on mobile, tablet, and desktop
      - **Smooth Animations:** Add subtle scroll animations or hover effects

      **Template: \""

def g2B : String :=
  "\"**

      Template-Specific Design Guidelines:

      **elegant-serif:**
      - Refined two-column layout with sidebar navigation
      - Use elegant serif fonts (like Playfair Display, Lora) for headings
      - Muted, sophisticated color palette (beiges, grays, with one refined accent)
      - Timeline-style work experience section
      - Add decorative flourishes or borders
      - Reference inspiration: professional designer portfolios with classic typography

      **bold-typography:**
      - Large, statement typography that dominates the page
      - Asymmetric, dynamic layouts with overlapping elements
      - High contrast color scheme
      - Use mix of font weights and sizes to create visual hierarchy
      - Hero section with oversized name and title
      - Reference inspiration: modern portfolio sites with experimental typography

      **minimal-cards:**
      - Clean grid-based layout
      - Project and experience cards with subtle shadows and hover effects
      - Single accent color on neutral background
      - Generous padding and spacing
      - Clear visual hierarchy through size and placement
      - Reference inspiration: Behance/Dribbble portfolio layouts

      **dark-modern:**
      - Dark background (#0a0a0a to #1a1a1a) with bright accent colors
      - Contemporary, tech-forward aesthetic
      - Gradient accents and glowing effects
      - White or light text with excellent readability
      - Glassmorphism or subtle blur effects
      - Reference inspiration: modern tech portfolio sites

      **venice-inspired:**
      - Artistic, expressive layout with decorative elements
      - Incorporate subtle circular badges or decorative icons
      - Mix of italicized and regular fonts
      - Soft, warm color palette
      - Add small illustrative elements (flowers, abstract shapes)
      - Personality-driven design with creative flair
      - Reference inspiration: designer portfolios with artistic touches

      **bento-grid:**
      - STRICTLY MONOCHROMATIC color scheme (grays, whites, blacks only - NO color accents)
      - Single-page scrolling layout with full-width sections
      - Clean, minimalist design with strong emphasis on typography
      - Hero section: Large, bold statement typography that dominates the viewport
      - Use very large font sizes for main headings (60px-120px)
      - Light gray or white background with black text
      - Sections separated by generous whitespace
      - Social links displayed as minimal text/icon buttons at the bottom
      - No complex grids - focus on centered, single-column layout
      - Simple pill-shaped buttons with black fill and white text
      - Subtle shadows and clean borders where needed
      - Professional, portfolio-style layout (not resume-like)
      - Each section should breathe with lots of padding/margin
      - Keep it ultra-minimal - less is more
      - Reference inspiration: modern portfolio sites like the one shown, minimalist design systems

      **Content Structure:**
      - Hero section: Large name, title/role, brief tagline
      - About section: 2-3 paragraph introduction with personality
      - Experience section: Focus on impact and achievements, not just responsibilities
      - Projects section: Visual cards with descriptions
      - Skills section: Organized by category or displayed visually
      - Contact section: Social links with icons

      **Pro Tips:**
      - Include subtle background patterns or gradients
      - Use accent colors strategically to draw attention
      - Add metrics/numbers where possible (years of experience, projects completed)
      - Make links and buttons visually distinct with hover states

      "

def g2ImgBlockA : String :=
  "**Profile Image:**
      A profile image has been provided. Use this image in the hero section or header area.
      Embed it using: <img src=\""

def g2ImgBlockB : String :=
  "\" alt=\"Profile\" class=\"...\" />
      Make it prominent - use a large circular or artistic crop as appropriate for the template style."

def g2NoImgBlock : String :=
  "**Profile Image:**
      NO profile image was provided. DO NOT include any image placeholders, broken image tags, or image frames.
      Focus on typography and decorative elements instead. Use the person's initials in a circular badge if needed."

def g2C : String :=
  "

      JSON data:
      ---
      "

def g2D : String :=
  "
      ---

      Return only the complete HTML file, formatted as an HTML markdown code block. Do not include any other text or explanation.
      Make it look professional, polished, and impressive - like something that would get featured on Awwwards or CSS Design Awards.
    "

/-- Variant 2's profile-image prompt section: the template ternary
`${imagePath ? ... : ...}` on the (truthy, i.e. non-empty) relative
image path. -/
def g2ImageSection (imagePath : Option String) : String :=
  match imagePath with
  | some p => if p = "" then g2NoImgBlock else g2ImgBlockA ++ p ++ g2ImgBlockB
  | none => g2NoImgBlock

/-- Source (variant 2, lines 625-733): the rendering prompt, embedding
the template id, the image section (a relative `./assets/...` path, not
a storage URL) and the re-serialized structured JSON. -/
def generationPrompt2 (template : String) (imagePath : Option String)
    (structuredJson : String) : String :=
  g2A ++ template ++ g2B ++ g2ImageSection imagePath ++ g2C ++ structuredJson ++ g2D

/-! ## Data model: request parts, records, events, results -/

/-- A multipart form file part, as used by the handler: its original
filename and MIME type. -/
structure FilePart where
  name : String
  type : String
  deriving DecidableEq, Repr

/-- Source (lines 418-425): the per-client history record stored in
Redis. -/
structure HistoryRecord where
  id : String
  url : String
  template : String
  createdAt : String
  fileName : String
  hasImage : Bool
  deriving DecidableEq, Repr

/-- Source (lines 403-413): the `metadata.json` document. -/
structure Metadata where
  id : String
  createdAt : String
  template : String
  version : String
  ip : String
  assets : List String
  hasImage : Bool
  fileName : String
  storageProvider : String
  deriving DecidableEq, Repr

/-- One observable effect of a handler run, in execution order: a Model
Provider call, a Storage Provider `uploadFile` (path and content type),
a Storage Provider `uploadJSON` of the metadata document, or the Redis
history `set` with its expiry (seconds). -/
inductive Event where
  | modelCall (prompt : String)
  | upload (path : String) (contentType : String)
  | uploadMetaJSON (path : String) (meta : Metadata)
  | historyWrite (key : String) (value : List HistoryRecord) (ex : Nat)
  deriving DecidableEq, Repr

/-- The JSON body and status the handler responds with: `ok url` is the
200 response, `err status message` the error response. -/
inductive ApiResult where
  | ok (url : String)
  | err (status : Nat) (message : String)
  deriving DecidableEq, Repr

/-- Number of Model Provider calls in a trace. -/
def modelCallCount (tr : List Event) : Nat :=
  (tr.filter fun e => match e with | .modelCall _ => true | _ => false).length

/-- Whether an event touches the Storage Provider or the history store. -/
def isPersistenceEvent : Event → Bool
  | .modelCall _ => false
  | .upload _ _ => true
  | .uploadMetaJSON _ _ => true
  | .historyWrite _ _ _ => true

/-- Source (lines 201-207): the five hard-coded creative-variation
instructions of variant 1. -/
def creativeVariations : List String :=
  [ "Experiment with unique color combinations and unexpected typography choices.",
    "Try an unconventional layout approach that breaks traditional design patterns.",
    "Focus on creating a memorable visual identity through distinctive design elements.",
    "Push creative boundaries with bold design decisions and artistic flair.",
    "Create a unique interpretation that stands out from typical portfolio websites." ]

/-- Everything a run of the handler observes from the outside world.
`extraction` is `parsePdfBuffer`'s outcome (`.error` = rejected promise,
whose message surfaces through the catch-all); `parseJSON` is
`JSON.parse` (see the header comment); `uploadUrl` is the URL the
Storage Provider returns for an uploaded path; `variationIndex` is
`Math.floor(Math.random() * creativeVariations.length)`; `randomSeed` is
`Math.random().toString(36).substring(7)`; `now` is
`new Date().toISOString()`. -/
structure Env where
  ip : Option String
  rateLimitSuccess : Bool
  captchaSuccess : Bool
  file : Option FilePart
  image : Option FilePart
  templateField : Option String
  extraction : Except String (String × Nat)
  validationResponse : String
  structuringResponse : String
  generationResponse : String
  parseJSON : String → Except String String
  uploadUrl : String → String
  uuid : String
  variationIndex : Fin 5
  randomSeed : String
  existingHistory : Option (List HistoryRecord)
  now : String
  storageName : String

/-- Source (line 69): `formData.get("template") as string ||
"elegant-serif"` — `null` and the empty string both fall back. -/
def templateOf : Option String → String
  | none => "elegant-serif"
  | some t => if t = "" then "elegant-serif" else t

/-! ## Error messages (source literals) -/

def rateLimitMsg : String := "Too many requests. Please try again later."
def captchaMsg : String := "reCAPTCHA verification failed."
def noFileMsg : String := "No file uploaded."
def noTextMsg : String := "Could not extract text from PDF."
def tooShortMsg : String :=
  "The PDF content is too short to be a resume. Please upload a complete resume document."
def tooManyPagesMsg : String :=
  "The PDF is too long to be a resume (max 5 pages). Resumes should be concise and focused."
def tooLongMsg1 : String :=
  "The PDF contains too much text to be a resume. Please upload a standard 1-5 page resume."
def tooLongMsg2 : String :=
  "The PDF contains too much text to be a resume. Please upload a standard 1-3 page resume."
def notAResumeMsg : String :=
  "The uploaded PDF doesn't appear to be a resume or CV. Please upload a valid resume document."

/-! ## The handler, variant 1 (uploads the image before generating the HTML) -/

/-- Source: `POST` of the first observed variant of the route (lines
49-441), as a pure function of its environment, returning the response
and the ordered trace of model calls, uploads and the history write. -/
def POST1 (env : Env) : ApiResult × List Event :=
  let identifier := env.ip.getD "127.0.0.1"
  if env.rateLimitSuccess = false then (.err 429 rateLimitMsg, [])
  else if env.captchaSuccess = false then (.err 400 captchaMsg, [])
  else match env.file with
  | none => (.err 400 noFileMsg, [])
  | some file =>
    let template := templateOf env.templateField
    match env.extraction with
    | .error msg => (.err 500 msg, [])
    | .ok (resumeText, pageCount) =>
      if resumeText = "" then (.err 500 noTextMsg, [])
      else
        -- 1.3. Pre-validation
        let textLength := (jsTrim resumeText).length
        if textLength < 100 then (.err 400 tooShortMsg, [])
        else if pageCount > 10 then (.err 400 tooManyPagesMsg, [])
        else if textLength > 35000 then (.err 400 tooLongMsg1, [])
        else
          -- 1.5. Classification
          let vPrompt := validationPrompt resumeText
          if strContains (jsTrim env.validationResponse) "VALID_RESUME" = false then
            (.err 400 notAResumeMsg, [.modelCall vPrompt])
          else
            -- 2. Structuring (the image extension of step 1.6 is pure and
            -- only read at the upload below)
            let sPrompt := structuringPrompt resumeText
            match env.parseJSON (cleanJSON env.structuringResponse) with
            | .error msg => (.err 500 msg, [.modelCall vPrompt, .modelCall sPrompt])
            | .ok structuredJson =>
              -- 3. Upload image first if provided
              let portfolioPath := "portfolios/" ++ env.uuid
              let imgUpload : Option (String × String) :=
                match env.image with
                | some image =>
                  some ("portfolios/" ++ env.uuid ++ "/assets/profile." ++
                      imageExtension image.name, image.type)
                | none => none
              let uploadedImageUrl : Option String := imgUpload.map (fun u => env.uploadUrl u.1)
              let assets : List String :=
                match env.image with
                | some image => ["profile." ++ imageExtension image.name]
                | none => []
              -- 4. Generation
              let randomVariation := creativeVariations.getD env.variationIndex.val ""
              let gPrompt := generationPrompt1 randomVariation env.randomSeed template
                uploadedImageUrl structuredJson
              -- 5. Save the HTML file
              let htmlPath := portfolioPath ++ "/index.html"
              let htmlUrl := env.uploadUrl htmlPath
              -- 6. metadata.json
              let meta : Metadata :=
                { id := env.uuid, createdAt := env.now, template := template,
                  version := "1.0.0", ip := identifier, assets := assets,
                  hasImage := env.image.isSome, fileName := file.name,
                  storageProvider := env.storageName }
              -- 7. History
              let historyKey := "portfolio:history:" ++ identifier
              let record : HistoryRecord :=
                { id := env.uuid, url := htmlUrl, template := template,
                  createdAt := env.now, fileName := file.name,
                  hasImage := env.image.isSome }
              let existingHistory := env.existingHistory.getD []
              let updatedHistory := (record :: existingHistory).take 10
              (.ok htmlUrl,
                [.modelCall vPrompt, .modelCall sPrompt] ++
                (match imgUpload with
                 | some u => [.upload u.1 u.2]
                 | none => []) ++
                [.modelCall gPrompt, .upload htmlPath "text/html",
                 .uploadMetaJSON (portfolioPath ++ "/metadata.json") meta,
                 .historyWrite historyKey updatedHistory (30 * 24 * 60 * 60)])

/-! ## The handler, variant 2 (uploads the HTML before the image) -/

/-- Source: `POST` of the second observed variant of the route (lines
489-800). Differences from variant 1: the text ceiling is 15000, the
rendering prompt has no random variation or seed and embeds a relative
`./assets/profile.{ext}` path instead of the uploaded image URL, and the
HTML is uploaded before the image. -/
def POST2 (env : Env) : ApiResult × List Event :=
  let identifier := env.ip.getD "127.0.0.1"
  if env.rateLimitSuccess = false then (.err 429 rateLimitMsg, [])
  else if env.captchaSuccess = false then (.err 400 captchaMsg, [])
  else match env.file with
  | none => (.err 400 noFileMsg, [])
  | some file =>
    let template := templateOf env.templateField
    match env.extraction with
    | .error msg => (.err 500 msg, [])
    | .ok (resumeText, pageCount) =>
      if resumeText = "" then (.err 500 noTextMsg, [])
      else
        -- 1.3. Pre-validation
        let textLength := (jsTrim resumeText).length
        if textLength < 100 then (.err 400 tooShortMsg, [])
        else if pageCount > 10 then (.err 400 tooManyPagesMsg, [])
        else if textLength > 15000 then (.err 400 tooLongMsg2, [])
        else
          -- 1.5. Classification
          let vPrompt := validationPrompt resumeText
          if strContains (jsTrim env.validationResponse) "VALID_RESUME" = false then
            (.err 400 notAResumeMsg, [.modelCall vPrompt])
          else
            -- 1.6. Image path (relative), 2. Structuring
            let imagePath : Option String :=
              match env.image with
              | some image => some ("./assets/profile." ++ imageExtension image.name)
              | none => none
            let sPrompt := structuringPrompt resumeText
            match env.parseJSON (cleanJSON env.structuringResponse) with
            | .error msg => (.err 500 msg, [.modelCall vPrompt, .modelCall sPrompt])
            | .ok structuredJson =>
              -- 3. Generation
              let gPrompt := generationPrompt2 template imagePath structuredJson
              -- 4. Save HTML first, then the image
              let portfolioPath := "portfolios/" ++ env.uuid
              let htmlPath := portfolioPath ++ "/index.html"
              let htmlUrl := env.uploadUrl htmlPath
              let imgUpload : Option (String × String) :=
                match env.image with
                | some image =>
                  some ("portfolios/" ++ env.uuid ++ "/assets/profile." ++
                      imageExtension image.name, image.type)
                | none => none
              let assets : List String :=
                match env.image with
                | some image => ["profile." ++ imageExtension image.name]
                | none => []
              let meta : Metadata :=
                { id := env.uuid, createdAt := env.now, template := template,
                  version := "1.0.0", ip := identifier, assets := assets,
                  hasImage := env.image.isSome, fileName := file.name,
                  storageProvider := env.storageName }
              -- 5. History
              let historyKey := "portfolio:history:" ++ identifier
              let record : HistoryRecord :=
                { id := env.uuid, url := htmlUrl, template := template,
                  createdAt := env.now, fileName := file.name,
                  hasImage := env.image.isSome }
              let existingHistory := env.existingHistory.getD []
              let updatedHistory := (record :: existingHistory).take 10
              (.ok htmlUrl,
                [.modelCall vPrompt, .modelCall sPrompt, .modelCall gPrompt,
                 .upload htmlPath "text/html"] ++
                (match imgUpload with
                 | some u => [.upload u.1 u.2]
                 | none => []) ++
                [.uploadMetaJSON (portfolioPath ++ "/metadata.json") meta,
                 .historyWrite historyKey updatedHistory (30 * 24 * 60 * 60)])

/-! ## Substring containment as a proposition -/

/-- Propositional substring containment: `t` occurs inside `s`. -/
def containsSub (s t : String) : Prop :=
  ∃ a b, s = a ++ t ++ b

/-! ## The Rate Limiter, modelled from the spec

Modelled from the spec: the sliding-window algorithm itself lives in the
`@upstash/ratelimit` library, not in the repository's files; the source
only configures it (`Ratelimit.slidingWindow(5, "1 m")`, lines 11-17)
and consumes its verdict (lines 60-64). The spec describes the component
as "a sliding-window counter keyed by client identifier, admitting or
rejecting a request", "5 requests / rolling 1-minute window". We model
an exact rolling-window counter over one client's admitted-request
timestamps (seconds). -/

/-- One limiter decision at time `t`: admit iff fewer than `limit`
already-admitted requests fall inside the rolling window `(t - window,
t]`, recording `t` when admitted. -/
def slidingWindowStep (limit window : Nat) (admittedT : List Nat) (t : Nat) :
    Bool × List Nat :=
  if (admittedT.filter (fun s => decide (t < s + window))).length < limit then
    (true, t :: admittedT)
  else (false, admittedT)

/-- Run the limiter over a chronological request sequence, returning each
request's admit/reject verdict. -/
def runLimiter (limit window : Nat) (ts : List Nat) : List Bool :=
  (ts.foldl
    (fun acc t =>
      let st := slidingWindowStep limit window acc.2 t
      (acc.1 ++ [st.1], st.2))
    (([] : List Bool), ([] : List Nat))).1

/-! ## The history store's expiry, modelled from the spec

Modelled from the spec: the key-value store itself is external ("a
remote key-value store: `set(key, value, ttl)`", "each write resets the
whole key's TTL"); the source only issues `redis.set(key, value, { ex:
30 * 24 * 60 * 60 })` (lines 431-432). -/

/-- A stored value with its absolute expiry time. -/
structure KVEntry (α : Type) where
  value : α
  expireAt : Nat
  deriving DecidableEq, Repr

/-- `SET key value EX ttl` at time `now`: the new expiry is `now + ttl`
whatever the previous entry (including its previous expiry) was. -/
def kvSetEx {α : Type} (now ttl : Nat) (v : α) (_old : Option (KVEntry α)) :
    KVEntry α :=
  ⟨v, now + ttl⟩

/-! ## Rejection classification and sample environments -/

/-- The rejections that occur before the persistence stage: rate limit
(429), CAPTCHA failure, missing file, pre-validation failures,
not-a-resume classification (400 with the corresponding message), and
empty extracted text (500). -/
def isPrePersistenceRejection : ApiResult → Bool
  | .ok _ => false
  | .err status m =>
    status == 429 ||
    (status == 400 &&
      (m == captchaMsg || m == noFileMsg || m == tooShortMsg ||
        m == tooManyPagesMsg || m == tooLongMsg1 || m == tooLongMsg2 ||
        m == notAResumeMsg)) ||
    (status == 500 && m == noTextMsg)

/-- A 150-character extracted text, above the 100-character floor and
below both ceilings. -/
def aText150 : String := String.mk (List.replicate 150 'a')

/-- A 20000-character extracted text: above variant 2's 15000 ceiling,
below variant 1's 35000 ceiling. -/
def aText20000 : String := String.mk (List.replicate 20000 'a')

/-- A fully admissible environment for a run with no profile image. -/
def envHappy : Env :=
  { ip := none, rateLimitSuccess := true, captchaSuccess := true,
    file := some ⟨"cv.pdf", "application/pdf"⟩, image := none,
    templateField := none, extraction := .ok (aText150, 1),
    validationResponse := "VALID_RESUME", structuringResponse := "[1, 2]",
    generationResponse := "<html></html>", parseJSON := fun s => .ok s,
    uploadUrl := fun p => p, uuid := "u1", variationIndex := 0,
    randomSeed := "seed", existingHistory := some [], now := "t0",
    storageName := "Local Storage" }

/-- An admissible environment carrying a `png` profile image. -/
def envWithImage : Env :=
  { ip := none, rateLimitSuccess := true, captchaSuccess := true,
    file := some ⟨"cv.pdf", "application/pdf"⟩,
    image := some ⟨"me.png", "image/png"⟩,
    templateField := some "dark-modern", extraction := .ok (aText150, 1),
    validationResponse := "VALID_RESUME", structuringResponse := "[1, 2]",
    generationResponse := "<html></html>", parseJSON := fun s => .ok s,
    uploadUrl := fun p => "https://blob.test/" ++ p, uuid := "u1",
    variationIndex := 0, randomSeed := "seed", existingHistory := none,
    now := "t0", storageName := "Vercel Blob" }

/-- An environment whose classification response is a refusal. -/
def envNotAResume : Env :=
  { ip := none, rateLimitSuccess := true, captchaSuccess := true,
    file := some ⟨"cv.pdf", "application/pdf"⟩, image := none,
    templateField := none, extraction := .ok (aText150, 1),
    validationResponse := "NOT_A_RESUME", structuringResponse := "[1, 2]",
    generationResponse := "<html></html>", parseJSON := fun s => .ok s,
    uploadUrl := fun p => p, uuid := "u1", variationIndex := 0,
    randomSeed := "seed", existingHistory := none, now := "t0",
    storageName := "Local Storage" }

/-- An environment with a 20000-character extracted text and a refusing
classifier, same `dark-modern` template for both variants. -/
def envLongText : Env :=
  { ip := none, rateLimitSuccess := true, captchaSuccess := true,
    file := some ⟨"cv.pdf", "application/pdf"⟩, image := none,
    templateField := some "dark-modern", extraction := .ok (aText20000, 1),
    validationResponse := "NOT_A_RESUME", structuringResponse := "[1, 2]",
    generationResponse := "<html></html>", parseJSON := fun s => .ok s,
    uploadUrl := fun p => p, uuid := "u1", variationIndex := 0,
    randomSeed := "seed", existingHistory := none, now := "t0",
    storageName := "Local Storage" }

/-- An environment whose structuring response does not parse as JSON. -/
def envBadJSON : Env :=
  { ip := none, rateLimitSuccess := true, captchaSuccess := true,
    file := some ⟨"cv.pdf", "application/pdf"⟩, image := none,
    templateField := none, extraction := .ok (aText150, 1),
    validationResponse := "VALID_RESUME", structuringResponse := "not json",
    generationResponse := "<html></html>",
    parseJSON := fun _ => .error "Unexpected token in JSON",
    uploadUrl := fun p => p, uuid := "u1", variationIndex := 0,
    randomSeed := "seed", existingHistory := none, now := "t0",
    storageName := "Local Storage" }

/-- A short-text environment (extracted text below 100 characters). -/
def envShortText : Env :=
  { ip := none, rateLimitSuccess := true, captchaSuccess := true,
    file := some ⟨"cv.pdf", "application/pdf"⟩, image := none,
    templateField := none, extraction := .ok ("too short", 1),
    validationResponse := "VALID_RESUME", structuringResponse := "[1, 2]",
    generationResponse := "<html></html>", parseJSON := fun s => .ok s,
    uploadUrl := fun p => p, uuid := "u1", variationIndex := 0,
    randomSeed := "seed", existingHistory := none, now := "t0",
    storageName := "Local Storage" }

/-- A rate-limited environment. -/
def envRateLimited : Env :=
  { ip := some "10.0.0.9", rateLimitSuccess := false, captchaSuccess := true,
    file := some ⟨"cv.pdf", "application/pdf"⟩, image := none,
    templateField := none, extraction := .ok (aText150, 1),
    validationResponse := "VALID_RESUME", structuringResponse := "[1, 2]",
    generationResponse := "<html></html>", parseJSON := fun s => .ok s,
    uploadUrl := fun p => p, uuid := "u1", variationIndex := 0,
    randomSeed := "seed", existingHistory := none, now := "t0",
    storageName := "Local Storage" }

/-- An admissible no-image environment with one existing history entry. -/
def envWithHistory : Env :=
  { ip := none, rateLimitSuccess := true, captchaSuccess := true,
    file := some ⟨"cv.pdf", "application/pdf"⟩, image := none,
    templateField := none, extraction := .ok (aText150, 1),
    validationResponse := "VALID_RESUME", structuringResponse := "[1, 2]",
    generationResponse := "<html></html>", parseJSON := fun s => .ok s,
    uploadUrl := fun p => p, uuid := "u2", variationIndex := 0,
    randomSeed := "seed",
    existingHistory := some [⟨"u1", "portfolios/u1/index.html", "elegant-serif",
      "t-1", "old.pdf", false⟩],
    now := "t0", storageName := "Local Storage" }

/-! ## Helper lemmas: strings and `findSub` -/

theorem strMk_data (s : String) : String.mk s.data = s := rfl

theorem findSub_self_append (pat rest : List Char) (h : pat ≠ []) :
    findSub pat (pat ++ rest) = some ([], rest) := by
  match pat, h with
  | c :: t, _ =>
    have hp : (c :: t).isPrefixOf (c :: t ++ rest) = true :=
      List.isPrefixOf_iff_prefix.mpr (List.prefix_append _ _)
    rw [List.cons_append, findSub, ← List.cons_append, if_pos hp, List.drop_left]

theorem prefix_append_cases {p l₁ l₂ : List Char} (h : p <+: l₁ ++ l₂) :
    p <+: l₁ ∨ ∃ r, p = l₁ ++ r ∧ r <+: l₂ := by
  rcases le_or_lt p.length l₁.length with hl | hl
  · exact Or.inl ((List.isPrefix_append_of_length hl).mp h)
  · right
    have h₁ : l₁ <+: p :=
      List.prefix_of_prefix_length_le (l₁.prefix_append l₂) h (Nat.le_of_lt hl)
    obtain ⟨r, rfl⟩ := h₁
    refine ⟨r, rfl, ?_⟩
    obtain ⟨t, ht⟩ := h
    rw [List.append_assoc] at ht
    exact ⟨t, List.append_cancel_left ht⟩

/-- Leftmost-first matching across an occurrence boundary: when the
pattern's head character does not recur in its tail and the pattern does
not occur in `inner`, the first occurrence of the pattern in
`inner ++ pat ++ ys` is the explicit middle one. -/
theorem findSub_append_right (hc : Char) (pt inner ys : List Char)
    (hni : hc ∉ pt) (h : findSub (hc :: pt) inner = none) :
    findSub (hc :: pt) (inner ++ (hc :: pt) ++ ys) = some (inner, ys) := by
  induction inner with
  | nil => simpa using findSub_self_append (hc :: pt) ys (by simp)
  | cons a inner ih =>
    rw [findSub] at h
    rcases hcase : (hc :: pt).isPrefixOf (a :: inner) with _ | _
    · rw [hcase, if_neg (by simp)] at h
      have hinner : findSub (hc :: pt) inner = none := by
        rcases hfs : findSub (hc :: pt) inner with _ | pr
        · rfl
        · rw [hfs] at h; simp at h
      have hnp : (hc :: pt).isPrefixOf (a :: (inner ++ (hc :: pt) ++ ys)) = false := by
        rcases hnp' : (hc :: pt).isPrefixOf (a :: (inner ++ (hc :: pt) ++ ys)) with _ | _
        · rfl
        · exfalso
          have hpre : (hc :: pt) <+: a :: (inner ++ (hc :: pt) ++ ys) :=
            List.isPrefixOf_iff_prefix.mp hnp'
          rw [List.cons_prefix_cons] at hpre
          obtain ⟨rfl, hpt⟩ := hpre
          rw [List.append_assoc] at hpt
          rcases prefix_append_cases hpt with hin | ⟨r, hr, hrp⟩
          · have : (hc :: pt).isPrefixOf (hc :: inner) = true :=
              List.isPrefixOf_iff_prefix.mpr (List.cons_prefix_cons.mpr ⟨rfl, hin⟩)
            rw [this] at hcase; cases hcase
          · rcases r with _ | ⟨rh, rt⟩
            · rw [List.append_nil] at hr
              subst hr
              have : (hc :: pt).isPrefixOf (hc :: pt) = true :=
                List.isPrefixOf_iff_prefix.mpr (List.prefix_refl _)
              rw [this] at hcase; cases hcase
            · have hrh : rh = hc := by
                rw [List.cons_append, List.cons_prefix_cons] at hrp
                exact hrp.1
              subst hrh
              exact hni (hr ▸ List.mem_append_right inner (List.mem_cons_self _ _))
      have hstep : (a :: inner) ++ (hc :: pt) ++ ys = a :: (inner ++ (hc :: pt) ++ ys) := by
        simp
      rw [hstep]
      conv_lhs => rw [findSub.eq_def]
      simp only [hnp, Bool.false_eq_true, if_false, ih hinner, Option.map_some']
    · rw [hcase, if_pos rfl] at h; cases h

theorem findSub_none_of_not_contains {s pat : String}
    (h : strContains s pat = false) : findSub pat.data s.data = none := by
  unfold strContains at h
  exact Option.not_isSome_iff_eq_none.mp (by simp [h])

/-! ## Helper lemmas: `cleanFence` -/

/-- Fence-stripping on a fully wrapped body: when the body does not
contain the closing fence, the wrapper is removed exactly. -/
theorem cleanFence_strip (label inner : String)
    (h : strContains inner "\n```" = false) :
    cleanFence label ("```" ++ label ++ "\n" ++ inner ++ "\n```") = inner := by
  have hnone : findSub ("\n```").data inner.data = none := findSub_none_of_not_contains h
  have hopen : ("```" ++ label ++ "\n").data ≠ [] := by
    simp [String.data_append]
  have hdata : ("```" ++ label ++ "\n" ++ inner ++ "\n```").data
      = ("```" ++ label ++ "\n").data ++ (inner.data ++ ("\n```").data) := by
    simp [String.data_append]
  have hclose : ("\n```" : String).data = '\n' :: ("```" : String).data := rfl
  have h2 : findSub ("\n```").data (inner.data ++ ("\n```").data)
      = some (inner.data, []) := by
    have := findSub_append_right '\n' ("```" : String).data inner.data []
      (by decide) (by rw [← hclose]; exact hnone)
    rw [List.append_nil] at this
    rw [hclose]
    exact this
  unfold cleanFence
  rw [hdata, findSub_self_append _ _ hopen]
  simp [h2, strMk_data]

/-- Fence-stripping leaves text without an opening fence unchanged. -/
theorem cleanFence_no_open (label text : String)
    (h : strContains text ("```" ++ label ++ "\n") = false) :
    cleanFence label text = text := by
  unfold cleanFence
  rw [findSub_none_of_not_contains h]

theorem cleanJSON_strip (inner : String) (h : strContains inner "\n```" = false) :
    cleanJSON ("```json\n" ++ inner ++ "\n```") = inner := by
  have : ("```json\n" : String) = "```" ++ "json" ++ "\n" := rfl
  rw [cleanJSON, this, cleanFence_strip "json" inner h]

theorem cleanJSON_no_fence (text : String)
    (h : strContains text "```json\n" = false) : cleanJSON text = text := by
  have : ("```json\n" : String) = "```" ++ "json" ++ "\n" := rfl
  rw [cleanJSON, cleanFence_no_open "json" text (by rw [← this]; exact h)]

/-! ## Helper lemmas: pipeline traces -/

/-- Every run either performs no persistence effect at all or ends in the
200 response: there is no failing branch after the first upload. -/
theorem POST1_shape (env : Env) :
    ((POST1 env).2).filter isPersistenceEvent = [] ∨ ∃ u, (POST1 env).1 = .ok u := by
  simp only [POST1]
  repeat' split
  all_goals simp [isPersistenceEvent]

theorem POST2_shape (env : Env) :
    ((POST2 env).2).filter isPersistenceEvent = [] ∨ ∃ u, (POST2 env).1 = .ok u := by
  simp only [POST2]
  repeat' split
  all_goals simp [isPersistenceEvent]

theorem POST1_err_no_persistence (env : Env) (s : Nat) (m : String)
    (hres : (POST1 env).1 = .err s m) :
    ((POST1 env).2).filter isPersistenceEvent = [] := by
  rcases POST1_shape env with h | ⟨u, hu⟩
  · exact h
  · rw [hres] at hu; cases hu

theorem POST2_err_no_persistence (env : Env) (s : Nat) (m : String)
    (hres : (POST2 env).1 = .err s m) :
    ((POST2 env).2).filter isPersistenceEvent = [] := by
  rcases POST2_shape env with h | ⟨u, hu⟩
  · exact h
  · rw [hres] at hu; cases hu

/-- Any history write a run of variant 1 performs uses the 30-day expiry,
the caller-keyed history key, and a new record prepended to the previous
sequence truncated to ten entries. -/
theorem POST1_historyWrite_mem (env : Env) (k : String) (h : List HistoryRecord)
    (ex : Nat) (hmem : Event.historyWrite k h ex ∈ (POST1 env).2) :
    ex = 30 * 24 * 60 * 60 ∧ k = "portfolio:history:" ++ (env.ip.getD "127.0.0.1") ∧
    ∃ rec, h = (rec :: (env.existingHistory.getD [])).take 10 := by
  simp only [POST1] at hmem
  repeat' split at hmem
  all_goals simp_all

theorem POST2_historyWrite_mem (env : Env) (k : String) (h : List HistoryRecord)
    (ex : Nat) (hmem : Event.historyWrite k h ex ∈ (POST2 env).2) :
    ex = 30 * 24 * 60 * 60 ∧ k = "portfolio:history:" ++ (env.ip.getD "127.0.0.1") ∧
    ∃ rec, h = (rec :: (env.existingHistory.getD [])).take 10 := by
  simp only [POST2] at hmem
  repeat' split at hmem
  all_goals simp_all

/-! ## Helper lemmas: replicate texts, `take`, `splitOnDot` -/

theorem dropWhile_replicate_of_neg (p : Char → Bool) (a : Char) (h : p a = false)
    (n : Nat) : (List.replicate n a).dropWhile p = List.replicate n a := by
  cases n with
  | zero => rfl
  | succ m => simp [List.replicate_succ, List.dropWhile_cons, h]

theorem jsTrim_replicate_length (n : Nat) (c : Char) (h : c.isWhitespace = false) :
    (jsTrim (String.mk (List.replicate n c))).length = n := by
  simp [jsTrim, trimChars, String.length, dropWhile_replicate_of_neg _ _ h,
    List.reverse_replicate]

theorem take_ten_cons {α : Type} (a : α) (l : List α) :
    (a :: l).take 10 = a :: l.take 9 := rfl

theorem splitOnDot_ne_nil (l : List Char) : splitOnDot l ≠ [] := by
  match l with
  | [] => simp [splitOnDot]
  | c :: rest =>
    rw [splitOnDot]
    split
    · simp
    · split <;> simp

theorem splitOnDot_no_dot (l : List Char) (h : '.' ∉ l) : splitOnDot l = [l] := by
  induction l with
  | nil => rfl
  | cons c rest ih =>
    have hc : ¬ c = '.' := fun hc => h (hc ▸ List.mem_cons_self c rest)
    have hr : '.' ∉ rest := fun hr => h (List.mem_cons_of_mem c hr)
    rw [splitOnDot, if_neg hc, ih hr]

theorem two_le_splitOnDot_length (l : List Char) (h : '.' ∈ l) :
    2 ≤ (splitOnDot l).length := by
  induction l with
  | nil => cases h
  | cons c rest ih =>
    rw [splitOnDot]
    by_cases hc : c = '.'
    · rw [if_pos hc]
      have := splitOnDot_ne_nil rest
      have : 1 ≤ (splitOnDot rest).length := by
        cases hs : splitOnDot rest
        · exact absurd hs this
        · simp
      simpa using this
    · rw [if_neg hc]
      have hr : '.' ∈ rest := by
        rcases List.mem_cons.mp h with h1 | h2
        · exact absurd h1.symm hc
        · exact h2
      have h2 := ih hr
      cases hs : splitOnDot rest with
      | nil => exact absurd hs (splitOnDot_ne_nil rest)
      | cons s ss =>
        rw [hs] at h2
        simpa using h2

theorem getLast?_cons_of_ne_nil {α : Type} (a : α) (l : List α) (h : l ≠ []) :
    (a :: l).getLast? = l.getLast? := by
  cases l with
  | nil => exact absurd rfl h
  | cons b m => exact List.getLast?_cons_cons

theorem getLast?_splitOnDot_append (xs ys : List Char) :
    (splitOnDot (xs ++ '.' :: ys)).getLast? = (splitOnDot ys).getLast? := by
  induction xs with
  | nil =>
    rw [List.nil_append, splitOnDot, if_pos rfl]
    exact getLast?_cons_of_ne_nil _ _ (splitOnDot_ne_nil ys)
  | cons c xs ih =>
    rw [List.cons_append, splitOnDot]
    by_cases hc : c = '.'
    · rw [if_pos hc]
      rw [getLast?_cons_of_ne_nil _ _ (splitOnDot_ne_nil _)]
      exact ih
    · rw [if_neg hc]
      cases hs : splitOnDot (xs ++ '.' :: ys) with
      | nil => exact absurd hs (splitOnDot_ne_nil _)
      | cons s ss =>
        have hss : ss ≠ [] := by
          have h2 := two_le_splitOnDot_length (xs ++ '.' :: ys)
            (List.mem_append_right xs (List.mem_cons_self '.' ys))
          rw [hs] at h2
          intro hnil
          rw [hnil] at h2
          simp at h2
        rw [getLast?_cons_of_ne_nil _ _ hss, ← getLast?_cons_of_ne_nil s ss hss, ← hs]
        exact ih

/-! ## Claim theorems -/

/-- C1: for every classification-stage model response, a run that reaches
the classification stage is rejected with the not-a-resume error (status
400) if and only if the trimmed response does not contain the literal
substring `VALID_RESUME`; substring containment, not exact equality, is
the accept rule, so `NOT_A_RESUME` and any response containing neither
token are rejected, in both route variants. -/
theorem classification_acceptance_iff_substring (env : Env)
    (resumeText : String) (pageCount : Nat) (f : FilePart)
    (hrl : env.rateLimitSuccess = true) (hcap : env.captchaSuccess = true)
    (hfile : env.file = some f)
    (hext : env.extraction = .ok (resumeText, pageCount))
    (htxt : resumeText ≠ "")
    (h100 : ¬ (jsTrim resumeText).length < 100)
    (hpg : ¬ pageCount > 10) :
    ((jsTrim resumeText).length ≤ 35000 →
      ((POST1 env).1 = .err 400 notAResumeMsg ↔
        strContains (jsTrim env.validationResponse) "VALID_RESUME" = false)) ∧
    ((jsTrim resumeText).length ≤ 15000 →
      ((POST2 env).1 = .err 400 notAResumeMsg ↔
        strContains (jsTrim env.validationResponse) "VALID_RESUME" = false)) := by
  constructor
  · intro h35
    rcases hvc : strContains (jsTrim env.validationResponse) "VALID_RESUME" with _ | _
    · simp [POST1, hrl, hcap, hfile, hext, htxt, h100, hpg, Nat.not_lt.mpr h35, hvc]
    · rcases hp : env.parseJSON (cleanJSON env.structuringResponse) with m | j <;>
        simp [POST1, hrl, hcap, hfile, hext, htxt, h100, hpg, Nat.not_lt.mpr h35,
          hvc, hp]
  · intro h15
    rcases hvc : strContains (jsTrim env.validationResponse) "VALID_RESUME" with _ | _
    · simp [POST2, hrl, hcap, hfile, hext, htxt, h100, hpg, Nat.not_lt.mpr h15, hvc]
    · rcases hp : env.parseJSON (cleanJSON env.structuringResponse) with m | j <;>
        simp [POST2, hrl, hcap, hfile, hext, htxt, h100, hpg, Nat.not_lt.mpr h15,
          hvc, hp]

set_option maxRecDepth 8000 in
/-- C1 witness: a run whose classifier answers `NOT_A_RESUME` is
rejected with the not-a-resume message. -/
theorem classification_acceptance_witness :
    (POST1 envNotAResume).1 = .err 400 notAResumeMsg := by
  have h := classification_acceptance_iff_substring envNotAResume aText150 1
    ⟨"cv.pdf", "application/pdf"⟩ rfl rfl rfl rfl
    (by decide) (by decide) (by norm_num)
  exact (h.1 (by decide)).mpr (by decide)

/-- C2: a run whose extracted trimmed text is shorter than 100
characters, or whose page count exceeds 10, is rejected with status 400
(the too-short or too-many-pages message) with an empty effect trace: in
particular the Model Provider call count of such a run is zero, in both
route variants. -/
theorem short_or_long_rejected_before_model_call (env : Env)
    (resumeText : String) (pageCount : Nat) (f : FilePart)
    (hrl : env.rateLimitSuccess = true) (hcap : env.captchaSuccess = true)
    (hfile : env.file = some f)
    (hext : env.extraction = .ok (resumeText, pageCount))
    (htxt : resumeText ≠ "")
    (hcond : (jsTrim resumeText).length < 100 ∨ pageCount > 10) :
    (POST1 env).2 = [] ∧ (POST2 env).2 = [] ∧
    modelCallCount (POST1 env).2 = 0 ∧ modelCallCount (POST2 env).2 = 0 ∧
    ∃ m, (POST1 env).1 = .err 400 m ∧ (POST2 env).1 = .err 400 m ∧
      (m = tooShortMsg ∨ m = tooManyPagesMsg) := by
  by_cases h100 : (jsTrim resumeText).length < 100
  · refine ⟨?_, ?_, ?_, ?_, tooShortMsg, ?_, ?_, Or.inl rfl⟩ <;>
      simp [POST1, POST2, modelCallCount, hrl, hcap, hfile, hext, htxt, h100]
  · have hpg : pageCount > 10 := by tauto
    refine ⟨?_, ?_, ?_, ?_, tooManyPagesMsg, ?_, ?_, Or.inr rfl⟩ <;>
      simp [POST1, POST2, modelCallCount, hrl, hcap, hfile, hext, htxt, h100, hpg]

/-- C2 witness: a 9-character extracted text is rejected with the
too-short message and no model call. -/
theorem short_rejected_witness :
    (POST1 envShortText).2 = [] ∧ (POST2 envShortText).2 = [] ∧
    modelCallCount (POST1 envShortText).2 = 0 ∧
    modelCallCount (POST2 envShortText).2 = 0 ∧
    ∃ m, (POST1 envShortText).1 = .err 400 m ∧
      (POST2 envShortText).1 = .err 400 m ∧
      (m = tooShortMsg ∨ m = tooManyPagesMsg) :=
  short_or_long_rejected_before_model_call envShortText "too short" 1
    ⟨"cv.pdf", "application/pdf"⟩ rfl rfl rfl rfl (by decide) (Or.inl (by decide))

/-- C3: the structuring stage strips a fenced `json` code block before
parsing (a fully fenced response is unwrapped exactly, a response with no
opening fence is parsed as-is), and when the stripped text is not valid
JSON the run fails with the parse error as a 500 whose trace shows the
two model calls made so far and no retry, in both route variants. -/
theorem structuring_fence_stripping_and_parse_failure :
    (∀ inner, strContains inner "\n```" = false →
      cleanJSON ("```json\n" ++ inner ++ "\n```") = inner) ∧
    (∀ text, strContains text "```json\n" = false → cleanJSON text = text) ∧
    (∀ (env : Env) (resumeText : String) (pageCount : Nat) (f : FilePart)
      (msg : String),
      env.rateLimitSuccess = true → env.captchaSuccess = true →
      env.file = some f → env.extraction = .ok (resumeText, pageCount) →
      resumeText ≠ "" → ¬ (jsTrim resumeText).length < 100 →
      ¬ pageCount > 10 → (jsTrim resumeText).length ≤ 15000 →
      strContains (jsTrim env.validationResponse) "VALID_RESUME" = true →
      env.parseJSON (cleanJSON env.structuringResponse) = .error msg →
      POST1 env = (.err 500 msg,
        [.modelCall (validationPrompt resumeText),
         .modelCall (structuringPrompt resumeText)]) ∧
      POST2 env = (.err 500 msg,
        [.modelCall (validationPrompt resumeText),
         .modelCall (structuringPrompt resumeText)])) := by
  refine ⟨cleanJSON_strip, cleanJSON_no_fence, ?_⟩
  intro env resumeText pageCount f msg hrl hcap hfile hext htxt h100 hpg h15 hvc hp
  have h35 : ¬ (jsTrim resumeText).length > 35000 :=
    Nat.not_lt.mpr (le_trans h15 (by norm_num : (15000 : Nat) ≤ 35000))
  have h15n : ¬ (jsTrim resumeText).length > 15000 := Nat.not_lt.mpr h15
  constructor <;>
    simp [POST1, POST2, hrl, hcap, hfile, hext, htxt, h100, hpg, h35, h15n, hvc, hp]

set_option maxRecDepth 8000 in
/-- C3 witness: a fenced array is unwrapped, unfenced text is kept, and
a non-JSON structuring response ends the run as a 500 after exactly the
classification and structuring calls. -/
theorem structuring_fence_stripping_witness :
    cleanJSON ("```json\n" ++ "[1, 2]" ++ "\n```") = "[1, 2]" ∧
    cleanJSON "plain text" = "plain text" ∧
    POST1 envBadJSON = (.err 500 "Unexpected token in JSON",
      [.modelCall (validationPrompt aText150),
       .modelCall (structuringPrompt aText150)]) :=
  ⟨structuring_fence_stripping_and_parse_failure.1 "[1, 2]" (by decide),
   structuring_fence_stripping_and_parse_failure.2.1 "plain text" (by decide),
   (structuring_fence_stripping_and_parse_failure.2.2 envBadJSON aText150 1
     ⟨"cv.pdf", "application/pdf"⟩ "Unexpected token in JSON" rfl rfl rfl rfl
     (by decide) (by decide) (by norm_num) (by decide) (by decide) rfl).1⟩

/-- C4 counterexample: the too-long ceiling is not a function of the
template. Two runs with the same `dark-modern` template and the same
20000-character extracted text diverge: variant 2 rejects with its
too-long message while variant 1 does not reject as too long at all. -/
theorem tooLong_threshold_counterexample :
    (POST2 envLongText).1 = .err 400 tooLongMsg2 ∧
    (POST1 envLongText).1 ≠ .err 400 tooLongMsg1 := by
  have hlen : (jsTrim aText20000).length = 20000 := by
    rw [show aText20000 = String.mk (List.replicate 20000 'a') from rfl]
    exact jsTrim_replicate_length 20000 'a' (by decide)
  have htxt : aText20000 ≠ "" := by
    intro h
    rw [h] at hlen
    have h0 : (jsTrim "").length = 0 := by decide
    rw [h0] at hlen
    cases hlen
  have hvc : strContains (jsTrim "NOT_A_RESUME") "VALID_RESUME" = false := by decide
  have hne : ¬ (notAResumeMsg = tooLongMsg1) := by decide
  constructor
  · simp [POST2, envLongText, hlen, htxt]
  · simp [POST1, envLongText, hlen, htxt, hvc, hne]

/-- C4 (amended): each route variant rejects with its too-long message
exactly when the trimmed extracted text exceeds that variant's
hard-coded ceiling — 35000 characters in variant 1, 15000 in variant 2;
the ceiling does not depend on the request's template. -/
theorem tooLong_threshold_is_variant_constant (env : Env)
    (resumeText : String) (pageCount : Nat) (f : FilePart)
    (hrl : env.rateLimitSuccess = true) (hcap : env.captchaSuccess = true)
    (hfile : env.file = some f)
    (hext : env.extraction = .ok (resumeText, pageCount))
    (htxt : resumeText ≠ "")
    (h100 : ¬ (jsTrim resumeText).length < 100)
    (hpg : ¬ pageCount > 10) :
    ((POST1 env).1 = .err 400 tooLongMsg1 ↔ 35000 < (jsTrim resumeText).length) ∧
    ((POST2 env).1 = .err 400 tooLongMsg2 ↔ 15000 < (jsTrim resumeText).length) := by
  constructor
  · by_cases h35 : (jsTrim resumeText).length > 35000
    · simp [POST1, hrl, hcap, hfile, hext, htxt, h100, hpg, h35]
    · rcases hvc : strContains (jsTrim env.validationResponse) "VALID_RESUME" with _ | _
      · have hne : ¬ (notAResumeMsg = tooLongMsg1) := by decide
        simp [POST1, hrl, hcap, hfile, hext, htxt, h100, hpg, h35, hvc, hne]
      · rcases hp : env.parseJSON (cleanJSON env.structuringResponse) with m | j <;>
          simp [POST1, hrl, hcap, hfile, hext, htxt, h100, hpg, h35, hvc, hp]
  · by_cases h15 : (jsTrim resumeText).length > 15000
    · simp [POST2, hrl, hcap, hfile, hext, htxt, h100, hpg, h15]
    · rcases hvc : strContains (jsTrim env.validationResponse) "VALID_RESUME" with _ | _
      · have hne : ¬ (notAResumeMsg = tooLongMsg2) := by decide
        simp [POST2, hrl, hcap, hfile, hext, htxt, h100, hpg, h15, hvc, hne]
      · rcases hp : env.parseJSON (cleanJSON env.structuringResponse) with m | j <;>
          simp [POST2, hrl, hcap, hfile, hext, htxt, h100, hpg, h15, hvc, hp]

set_option maxRecDepth 8000 in
/-- C4 witness: a 150-character admissible run instantiates both
variant-specific too-long equivalences. -/
theorem tooLong_threshold_witness :
    ((POST1 envHappy).1 = .err 400 tooLongMsg1 ↔ 35000 < (jsTrim aText150).length) ∧
    ((POST2 envHappy).1 = .err 400 tooLongMsg2 ↔ 15000 < (jsTrim aText150).length) :=
  tooLong_threshold_is_variant_constant envHappy aText150 1
    ⟨"cv.pdf", "application/pdf"⟩ rfl rfl rfl rfl (by decide) (by decide)
    (by norm_num)

/-- C5 counterexample: in route variant 2, a successful run that
includes a profile image uploads the rendered HTML (trace index 3)
strictly before the image bytes (trace index 4), so the image is not
uploaded before the HTML for every request. -/
theorem image_upload_order_counterexample :
    (POST2 envWithImage).1 = .ok "https://blob.test/portfolios/u1/index.html" ∧
    ((POST2 envWithImage).2)[3]? =
      some (.upload "portfolios/u1/index.html" "text/html") ∧
    ((POST2 envWithImage).2)[4]? =
      some (.upload "portfolios/u1/assets/profile.png" "image/png") := by
  have hlen : (jsTrim aText150).length = 150 := by
    rw [show aText150 = String.mk (List.replicate 150 'a') from rfl]
    exact jsTrim_replicate_length 150 'a' (by decide)
  have htxt : aText150 ≠ "" := by
    intro h
    rw [h] at hlen
    have h0 : (jsTrim "").length = 0 := by decide
    rw [h0] at hlen
    cases hlen
  have hvc : strContains (jsTrim "VALID_RESUME") "VALID_RESUME" = true := by decide
  have hpng : imageExtension "me.png" = "png" := by decide
  simp [POST2, envWithImage, hlen, htxt, hvc, hpng]

/-- C5 (amended): with a profile image present, variant 1 uploads the
image (trace index 2) before the rendering model call (index 3) and the
HTML upload (index 4), and its rendering prompt embeds the image's final
public URL; variant 2 instead makes all three model calls first, uploads
the HTML (index 3) before the image (index 4), and its rendering prompt
embeds only the relative `./assets/profile.{ext}` path. -/
theorem image_upload_order_per_variant (env : Env)
    (resumeText : String) (pageCount : Nat) (f img : FilePart) (j : String)
    (hrl : env.rateLimitSuccess = true) (hcap : env.captchaSuccess = true)
    (hfile : env.file = some f)
    (hext : env.extraction = .ok (resumeText, pageCount))
    (htxt : resumeText ≠ "")
    (h100 : ¬ (jsTrim resumeText).length < 100)
    (hpg : ¬ pageCount > 10)
    (h15 : (jsTrim resumeText).length ≤ 15000)
    (hvc : strContains (jsTrim env.validationResponse) "VALID_RESUME" = true)
    (hp : env.parseJSON (cleanJSON env.structuringResponse) = .ok j)
    (himg : env.image = some img)
    (hurl : env.uploadUrl
      ("portfolios/" ++ env.uuid ++ "/assets/profile." ++ imageExtension img.name)
      ≠ "") :
    ((POST1 env).2)[2]? = some (.upload
      ("portfolios/" ++ env.uuid ++ "/assets/profile." ++ imageExtension img.name)
      img.type) ∧
    ((POST1 env).2)[3]? = some (.modelCall
      (generationPrompt1 (creativeVariations.getD env.variationIndex.val "")
        env.randomSeed (templateOf env.templateField)
        (some (env.uploadUrl ("portfolios/" ++ env.uuid ++ "/assets/profile." ++
          imageExtension img.name))) j)) ∧
    ((POST1 env).2)[4]? =
      some (.upload ("portfolios/" ++ env.uuid ++ "/index.html") "text/html") ∧
    containsSub
      (generationPrompt1 (creativeVariations.getD env.variationIndex.val "")
        env.randomSeed (templateOf env.templateField)
        (some (env.uploadUrl ("portfolios/" ++ env.uuid ++ "/assets/profile." ++
          imageExtension img.name))) j)
      (env.uploadUrl ("portfolios/" ++ env.uuid ++ "/assets/profile." ++
        imageExtension img.name)) ∧
    ((POST2 env).2)[2]? = some (.modelCall
      (generationPrompt2 (templateOf env.templateField)
        (some ("./assets/profile." ++ imageExtension img.name)) j)) ∧
    ((POST2 env).2)[3]? =
      some (.upload ("portfolios/" ++ env.uuid ++ "/index.html") "text/html") ∧
    ((POST2 env).2)[4]? = some (.upload
      ("portfolios/" ++ env.uuid ++ "/assets/profile." ++ imageExtension img.name)
      img.type) ∧
    containsSub
      (generationPrompt2 (templateOf env.templateField)
        (some ("./assets/profile." ++ imageExtension img.name)) j)
      ("./assets/profile." ++ imageExtension img.name) := by
  have h35 : ¬ (jsTrim resumeText).length > 35000 :=
    Nat.not_lt.mpr (le_trans h15 (by norm_num : (15000 : Nat) ≤ 35000))
  have h15n : ¬ (jsTrim resumeText).length > 15000 := Nat.not_lt.mpr h15
  have hrel : ("./assets/profile." ++ imageExtension img.name) ≠ "" := by
    intro h
    have hd := congrArg String.data h
    simp [String.data_append] at hd
  refine ⟨?_, ?_, ?_, ?_, ?_, ?_, ?_, ?_⟩
  · simp [POST1, hrl, hcap, hfile, hext, htxt, h100, hpg, h35, hvc, hp, himg]
  · simp [POST1, hrl, hcap, hfile, hext, htxt, h100, hpg, h35, hvc, hp, himg]
  · simp [POST1, hrl, hcap, hfile, hext, htxt, h100, hpg, h35, hvc, hp, himg]
  · have hurl' : env.uploadUrl
        ("portfolios/" ++ (env.uuid ++ ("/assets/profile." ++
          imageExtension img.name))) ≠ "" := by
      simpa [String.append_assoc] using hurl
    exact ⟨g1A ++ creativeVariations.getD env.variationIndex.val "" ++ g1B ++
      env.randomSeed ++ g1C ++ templateOf env.templateField ++ g1D ++ g1ImgBlockA,
      g1ImgBlockB ++ g1E ++ j ++ g1F,
      by simp [generationPrompt1, g1ImageSection, hurl', String.append_assoc]⟩
  · simp [POST2, hrl, hcap, hfile, hext, htxt, h100, hpg, h15n, hvc, hp, himg]
  · simp [POST2, hrl, hcap, hfile, hext, htxt, h100, hpg, h15n, hvc, hp, himg]
  · simp [POST2, hrl, hcap, hfile, hext, htxt, h100, hpg, h15n, hvc, hp, himg]
  · exact ⟨g2A ++ templateOf env.templateField ++ g2B ++ g2ImgBlockA,
      g2ImgBlockB ++ g2C ++ j ++ g2D,
      by simp [generationPrompt2, g2ImageSection, hrel, String.append_assoc]⟩

set_option maxRecDepth 8000 in
/-- C5 witness: the amended order and prompt-content facts instantiated
on a concrete run with a `png` image. -/
theorem image_upload_order_witness :
    ((POST1 envWithImage).2)[2]? = some (.upload
      ("portfolios/" ++ "u1" ++ "/assets/profile." ++ imageExtension "me.png")
      "image/png") ∧
    ((POST1 envWithImage).2)[3]? = some (.modelCall
      (generationPrompt1 (creativeVariations.getD 0 "") "seed"
        (templateOf (some "dark-modern"))
        (some ("https://blob.test/" ++ ("portfolios/" ++ "u1" ++
          "/assets/profile." ++ imageExtension "me.png"))) "[1, 2]")) ∧
    ((POST1 envWithImage).2)[4]? =
      some (.upload ("portfolios/" ++ "u1" ++ "/index.html") "text/html") ∧
    containsSub
      (generationPrompt1 (creativeVariations.getD 0 "") "seed"
        (templateOf (some "dark-modern"))
        (some ("https://blob.test/" ++ ("portfolios/" ++ "u1" ++
          "/assets/profile." ++ imageExtension "me.png"))) "[1, 2]")
      ("https://blob.test/" ++ ("portfolios/" ++ "u1" ++ "/assets/profile." ++
        imageExtension "me.png")) ∧
    ((POST2 envWithImage).2)[2]? = some (.modelCall
      (generationPrompt2 (templateOf (some "dark-modern"))
        (some ("./assets/profile." ++ imageExtension "me.png")) "[1, 2]")) ∧
    ((POST2 envWithImage).2)[3]? =
      some (.upload ("portfolios/" ++ "u1" ++ "/index.html") "text/html") ∧
    ((POST2 envWithImage).2)[4]? = some (.upload
      ("portfolios/" ++ "u1" ++ "/assets/profile." ++ imageExtension "me.png")
      "image/png") ∧
    containsSub
      (generationPrompt2 (templateOf (some "dark-modern"))
        (some ("./assets/profile." ++ imageExtension "me.png")) "[1, 2]")
      ("./assets/profile." ++ imageExtension "me.png") :=
  image_upload_order_per_variant envWithImage aText150 1
    ⟨"cv.pdf", "application/pdf"⟩ ⟨"me.png", "image/png"⟩ "[1, 2]"
    rfl rfl rfl rfl (by decide) (by decide) (by norm_num) (by decide)
    (by decide) rfl rfl (by decide)

/-- C6: any history sequence a run writes (either variant) has length at
most 10 and is the new record prepended to the first nine entries of the
previously stored sequence — so with ten existing entries the oldest
(last) entry is dropped. -/
theorem history_capped_newest_first (env : Env) (k : String)
    (h : List HistoryRecord) (ex : Nat) :
    (Event.historyWrite k h ex ∈ (POST1 env).2 →
      h.length ≤ 10 ∧ ∃ rec, h = rec :: (env.existingHistory.getD []).take 9 ∧
        ((env.existingHistory.getD []).length = 10 →
          h = rec :: (env.existingHistory.getD []).dropLast)) ∧
    (Event.historyWrite k h ex ∈ (POST2 env).2 →
      h.length ≤ 10 ∧ ∃ rec, h = rec :: (env.existingHistory.getD []).take 9 ∧
        ((env.existingHistory.getD []).length = 10 →
          h = rec :: (env.existingHistory.getD []).dropLast)) := by
  constructor <;> intro hmem
  · obtain ⟨-, -, rec, hrec⟩ := POST1_historyWrite_mem env k h ex hmem
    rw [take_ten_cons] at hrec
    subst hrec
    refine ⟨?_, rec, rfl, ?_⟩
    · have := List.length_take_le 9 (env.existingHistory.getD [])
      simp only [List.length_cons]
      omega
    · intro hlen
      rw [List.dropLast_eq_take, hlen]
  · obtain ⟨-, -, rec, hrec⟩ := POST2_historyWrite_mem env k h ex hmem
    rw [take_ten_cons] at hrec
    subst hrec
    refine ⟨?_, rec, rfl, ?_⟩
    · have := List.length_take_le 9 (env.existingHistory.getD [])
      simp only [List.length_cons]
      omega
    · intro hlen
      rw [List.dropLast_eq_take, hlen]

set_option maxRecDepth 8000 in
/-- C6 witness: a run over a one-entry stored history writes the new
record prepended to it. -/
theorem history_capped_witness :
    ([⟨"u2", "portfolios/u2/index.html", "elegant-serif", "t0", "cv.pdf", false⟩,
      ⟨"u1", "portfolios/u1/index.html", "elegant-serif", "t-1", "old.pdf", false⟩]
        : List HistoryRecord).length ≤ 10 ∧
    ∃ rec, ([⟨"u2", "portfolios/u2/index.html", "elegant-serif", "t0", "cv.pdf",
        false⟩,
      ⟨"u1", "portfolios/u1/index.html", "elegant-serif", "t-1", "old.pdf", false⟩]
        : List HistoryRecord) =
        rec :: (envWithHistory.existingHistory.getD []).take 9 ∧
      ((envWithHistory.existingHistory.getD []).length = 10 →
        ([⟨"u2", "portfolios/u2/index.html", "elegant-serif", "t0", "cv.pdf",
            false⟩,
          ⟨"u1", "portfolios/u1/index.html", "elegant-serif", "t-1", "old.pdf",
            false⟩] : List HistoryRecord) =
          rec :: (envWithHistory.existingHistory.getD []).dropLast) :=
  (history_capped_newest_first envWithHistory "portfolio:history:127.0.0.1"
    [⟨"u2", "portfolios/u2/index.html", "elegant-serif", "t0", "cv.pdf", false⟩,
     ⟨"u1", "portfolios/u1/index.html", "elegant-serif", "t-1", "old.pdf", false⟩]
    (30 * 24 * 60 * 60)).1 (by decide)

/-- C7: every history write of either variant passes the thirty-day
expiry `30 * 24 * 60 * 60` seconds, and a `SET ... EX` write of the
modelled store sets the key's absolute expiry to the write time plus the
TTL regardless of any previous entry — a reset on each write, not an
extension of the previous TTL. -/
theorem history_expiry_thirty_days (env : Env) (k : String)
    (h : List HistoryRecord) (ex : Nat) :
    (Event.historyWrite k h ex ∈ (POST1 env).2 → ex = 30 * 24 * 60 * 60) ∧
    (Event.historyWrite k h ex ∈ (POST2 env).2 → ex = 30 * 24 * 60 * 60) ∧
    (∀ (now2 ttl : Nat) (v : List HistoryRecord)
        (old : Option (KVEntry (List HistoryRecord))),
      (kvSetEx now2 ttl v old).expireAt = now2 + ttl ∧
      (kvSetEx now2 ttl v old).value = v) :=
  ⟨fun hm => (POST1_historyWrite_mem env k h ex hm).1,
   fun hm => (POST2_historyWrite_mem env k h ex hm).1,
   fun _ _ _ _ => ⟨rfl, rfl⟩⟩

set_option maxRecDepth 8000 in
/-- C7 witness: the history write of a concrete successful run carries
the thirty-day expiry. -/
theorem history_expiry_witness : (2592000 : Nat) = 30 * 24 * 60 * 60 :=
  (history_expiry_thirty_days envHappy "portfolio:history:127.0.0.1"
    [⟨"u1", "portfolios/u1/index.html", "elegant-serif", "t0", "cv.pdf", false⟩]
    2592000).1 (by decide)

/-- C8 counterexample: the filename `photo` has no extension, yet the
derived extension is `photo`, not the claimed `jpg` fallback. -/
theorem image_extension_counterexample :
    imageExtension "photo" = "photo" ∧ imageExtension "photo" ≠ "jpg" := by
  decide

/-- C8 (amended): the stored extension is the segment of the filename
after its last dot — for a dot-free non-empty filename the whole
filename — and the `jpg` fallback applies exactly when that last segment
is empty. -/
theorem image_extension_last_dot_segment (name : String) (base ext : List Char)
    (hext : '.' ∉ ext) :
    ('.' ∉ name.data → name ≠ "" → imageExtension name = name) ∧
    imageExtension (String.mk (base ++ '.' :: ext)) =
      (if ext.isEmpty then "jpg" else String.mk ext) := by
  constructor
  · intro hnd hne
    have hdata : name.data ≠ [] := by
      intro h0
      apply hne
      have := strMk_data name
      rw [h0] at this
      exact this.symm
    simp [imageExtension, splitOnDot_no_dot name.data hnd, hdata, strMk_data]
  · have hdat : (String.mk (base ++ '.' :: ext)).data = base ++ '.' :: ext := rfl
    simp [imageExtension, hdat, getLast?_splitOnDot_append base ext,
      splitOnDot_no_dot ext hext]

/-- C8 witness: the filename `me.png` yields the extension `png`. -/
theorem image_extension_witness :
    imageExtension (String.mk (['m', 'e'] ++ '.' :: ['p', 'n', 'g'])) =
      (if (['p', 'n', 'g'] : List Char).isEmpty then "jpg"
        else String.mk ['p', 'n', 'g']) :=
  (image_extension_last_dot_segment "x" ['m', 'e'] ['p', 'n', 'g'] (by decide)).2

/-- C9: the modelled sliding-window limiter configured as in the source
(5 requests per rolling 60-second window) admits exactly the first five
of six requests falling inside one window and rejects the sixth, and a
run whose limiter verdict is a rejection returns 429 with the
too-many-requests message and performs nothing else (empty trace), in
both variants. -/
theorem rate_limiter_five_per_window (t1 t2 t3 t4 t5 t6 : Nat)
    (h12 : t1 ≤ t2) (h23 : t2 ≤ t3) (h34 : t3 ≤ t4) (h45 : t4 ≤ t5)
    (h56 : t5 ≤ t6) (hwin : t6 < t1 + 60) :
    runLimiter 5 60 [t1, t2, t3, t4, t5, t6] =
      [true, true, true, true, true, false] ∧
    (∀ env : Env, env.rateLimitSuccess = false →
      POST1 env = (.err 429 rateLimitMsg, []) ∧
      POST2 env = (.err 429 rateLimitMsg, [])) := by
  constructor
  · have l13 : t1 ≤ t3 := le_trans h12 h23
    have l14 : t1 ≤ t4 := le_trans l13 h34
    have l15 : t1 ≤ t5 := le_trans l14 h45
    have l16 : t1 ≤ t6 := le_trans l15 h56
    have u5 : t5 ≤ t6 := h56
    have u4 : t4 ≤ t6 := le_trans h45 u5
    have u3 : t3 ≤ t6 := le_trans h34 u4
    have u2 : t2 ≤ t6 := le_trans h23 u3
    have w21 : t2 < t1 + 60 := lt_of_le_of_lt u2 hwin
    have w31 : t3 < t1 + 60 := lt_of_le_of_lt u3 hwin
    have w41 : t4 < t1 + 60 := lt_of_le_of_lt u4 hwin
    have w51 : t5 < t1 + 60 := lt_of_le_of_lt u5 hwin
    have w61 : t6 < t1 + 60 := hwin
    have w32 : t3 < t2 + 60 := lt_of_lt_of_le w31 (by omega)
    have w42 : t4 < t2 + 60 := lt_of_lt_of_le w41 (by omega)
    have w52 : t5 < t2 + 60 := lt_of_lt_of_le w51 (by omega)
    have w62 : t6 < t2 + 60 := lt_of_lt_of_le w61 (by omega)
    have w43 : t4 < t3 + 60 := by omega
    have w53 : t5 < t3 + 60 := by omega
    have w63 : t6 < t3 + 60 := by omega
    have w54 : t5 < t4 + 60 := by omega
    have w64 : t6 < t4 + 60 := by omega
    have w65 : t6 < t5 + 60 := by omega
    simp [runLimiter, slidingWindowStep, w21, w31, w41, w51, w61, w32, w42,
      w52, w62, w43, w53, w63, w54, w64, w65]
  · intro env h
    constructor <;> simp [POST1, POST2, h]

/-- C9 witness: six requests at seconds 0, 10, 20, 30, 40, 50 of one
window: five admitted, the sixth rejected; a rejected run responds 429
and does nothing else. -/
theorem rate_limiter_witness :
    runLimiter 5 60 [0, 10, 20, 30, 40, 50] =
      [true, true, true, true, true, false] ∧
    (∀ env : Env, env.rateLimitSuccess = false →
      POST1 env = (.err 429 rateLimitMsg, []) ∧
      POST2 env = (.err 429 rateLimitMsg, [])) :=
  rate_limiter_five_per_window 0 10 20 30 40 50 (by norm_num) (by norm_num)
    (by norm_num) (by norm_num) (by norm_num) (by norm_num)

/-- C10: a run rejected before the persistence stage — rate limiting,
CAPTCHA failure, missing file, empty extracted text, a pre-validation
failure or the not-a-resume classification — performs no Storage
Provider upload and no history-store write, in both variants. -/
theorem rejected_requests_leave_no_persistence (env : Env) :
    (isPrePersistenceRejection (POST1 env).1 = true →
      ((POST1 env).2).filter isPersistenceEvent = []) ∧
    (isPrePersistenceRejection (POST2 env).1 = true →
      ((POST2 env).2).filter isPersistenceEvent = []) := by
  refine ⟨fun hpre => ?_, fun hpre => ?_⟩
  · rcases hres : (POST1 env).1 with u | ⟨s, m⟩
    · rw [hres] at hpre
      simp [isPrePersistenceRejection] at hpre
    · exact POST1_err_no_persistence env s m hres
  · rcases hres : (POST2 env).1 with u | ⟨s, m⟩
    · rw [hres] at hpre
      simp [isPrePersistenceRejection] at hpre
    · exact POST2_err_no_persistence env s m hres

/-- C10 witness: a rate-limited run leaves storage and history
untouched in both variants. -/
theorem rejected_requests_witness :
    ((POST1 envRateLimited).2).filter isPersistenceEvent = [] ∧
    ((POST2 envRateLimited).2).filter isPersistenceEvent = [] :=
  ⟨(rejected_requests_leave_no_persistence envRateLimited).1 (by decide),
   (rejected_requests_leave_no_persistence envRateLimited).2 (by decide)⟩
